import Mathlib

/-!
# Verification of the Senior News Daily custom-features state manager

Shallow embedding of `src/site/custom-features.js` (class `SeniorNewsCustomizer`):
the Feed Registry (`customFeeds`), the Deletion Registry (`deletedArticles`),
the persistent-store load discipline, the add-feed form handler, the YAML
export, and the DOM count badges maintained by `updateStats` /
`addControlButtons`.

Modelling conventions:
* JavaScript `Date.now()` values are passed in explicitly as a `now : Nat`
  argument wherever the source reads the clock.
* `localStorage` plus `JSON.parse` are modelled by passing the parse outcome
  (`Except Unit Json`): `Except.error ()` is a parse exception (corrupt text),
  `Except.ok Json.null` is a missing key (`JSON.parse(null)` yields `null`),
  and `Except.ok v` is a successful parse of stored text.
* The DOM fragments touched by the count badges are modelled by a record of
  the three badge texts.
-/

namespace SND

/-- JavaScript JSON values, as produced by `JSON.parse`. -/
inductive Json where
  | null
  | bool (b : Bool)
  | num (n : Int)
  | str (s : String)
  | arr (elems : List Json)
  | obj (fields : List (String × Json))
deriving Repr

/-- JavaScript truthiness of a JSON value: `null`, `false`, `0` and `""` are
falsy; every array and object is truthy. -/
def Json.truthy : Json → Bool
  | .null => false
  | .bool b => b
  | .num n => n != 0
  | .str s => s != ""
  | .arr _ => true
  | .obj _ => true

/-- Embedding of `loadCustomFeeds` (custom-features.js lines 21-28):
`try { return JSON.parse(localStorage.getItem('snd_customFeeds')) || []; }
catch (e) { ... return []; }`.  The argument is the outcome of
`JSON.parse(localStorage.getItem(key))`; `||` replaces a falsy parse result
by the empty array, and the `catch` turns a parse exception into `[]`. -/
def loadCustomFeeds (parsed : Except Unit Json) : Json :=
  match parsed with
  | .error _ => .arr []
  | .ok v => if v.truthy then v else .arr []

/-- Embedding of `loadDeletedArticles` (custom-features.js lines 65-72); identical load
discipline under the key `snd_deletedArticles`. -/
def loadDeletedArticles (parsed : Except Unit Json) : Json :=
  match parsed with
  | .error _ => .arr []
  | .ok v => if v.truthy then v else .arr []

/-- A custom feed entry, as constructed by `addCustomFeed`
(custom-features.js lines 36-43).  `id` and `dateAdded` both come from the
clock at creation time; timestamps are modelled as `Nat`. -/
structure FeedEntry where
  id : Nat
  name : String
  url : String
  category : String
  dateAdded : Nat
  enabled : Bool
deriving Repr, DecidableEq

/-- Embedding of `addCustomFeed` (custom-features.js lines 35-48): builds the entry with
`id = Date.now()`, `category = feedData.category || 'General'`,
`dateAdded = now`, `enabled = true`, pushes it onto `customFeeds` and returns
it.  `now` is the clock value read by `Date.now()` at invocation. -/
def addCustomFeed (now : Nat) (name url category : String)
    (feeds : List FeedEntry) : FeedEntry × List FeedEntry :=
  let feed : FeedEntry :=
    { id := now
      name := name
      url := url
      category := if category = "" then "General" else category
      dateAdded := now
      enabled := true }
  (feed, feeds ++ [feed])

/-- Embedding of `removeCustomFeed` (custom-features.js lines 50-53):
`this.customFeeds = this.customFeeds.filter(f => f.id !== feedId)`. -/
def removeCustomFeed (feedId : Nat) (feeds : List FeedEntry) : List FeedEntry :=
  feeds.filter (fun f => f.id != feedId)

/-- Embedding of `toggleCustomFeed` (custom-features.js lines 55-61):
`const feed = this.customFeeds.find(f => f.id === feedId); if (feed) {
feed.enabled = !feed.enabled; ... }` — flips `enabled` on the first entry
whose `id` matches, leaving the rest of the list untouched. -/
def toggleCustomFeed (feedId : Nat) (feeds : List FeedEntry) : List FeedEntry :=
  match feeds with
  | [] => []
  | f :: rest =>
    if f.id = feedId then { f with enabled := !f.enabled } :: rest
    else f :: toggleCustomFeed feedId rest

/-- A sequence of `addCustomFeed` calls; each element of `inputs` is the
clock value observed by that call together with the `(name, url, category)`
arguments. -/
def addMany (inputs : List (Nat × String × String × String))
    (feeds : List FeedEntry) : List FeedEntry :=
  match inputs with
  | [] => feeds
  | (now, name, url, category) :: rest =>
    addMany rest (addCustomFeed now name url category feeds).2

/-- Embedding of `deleteArticle` (custom-features.js lines 79-84):
`if (!this.deletedArticles.includes(articleUrl)) { this.deletedArticles.push(articleUrl); ... }`. -/
def deleteArticle (articleUrl : String) (deleted : List String) : List String :=
  if deleted.contains articleUrl then deleted else deleted ++ [articleUrl]

/-- Embedding of `restoreArticle` (custom-features.js lines 86-89):
`this.deletedArticles = this.deletedArticles.filter(url => url !== articleUrl)`. -/
def restoreArticle (articleUrl : String) (deleted : List String) : List String :=
  deleted.filter (fun url => url != articleUrl)

/-- Embedding of `isArticleDeleted` (custom-features.js lines 91-93):
`return this.deletedArticles.includes(articleUrl)`. -/
def isArticleDeleted (articleUrl : String) (deleted : List String) : Bool :=
  deleted.contains articleUrl

/-- JavaScript `String.prototype.trim`: strips leading and trailing
whitespace.  Written over the character list so that it reduces inside the
kernel. -/
def jsTrim (s : String) : String :=
  String.mk (((s.data.dropWhile Char.isWhitespace).reverse.dropWhile
    Char.isWhitespace).reverse)

/-- Outcome of `handleAddFeed`: each alert branch, or the created entry. -/
inductive AddFeedOutcome where
  | missingFields
  | invalidUrl
  | added (feed : FeedEntry)
deriving Repr, DecidableEq

/-- Embedding of `handleAddFeed` (custom-features.js lines 558-582): trims the three form
fields, aborts with an alert when name or url is empty after trimming, aborts
with an alert when `new URL(url)` throws, otherwise calls `addCustomFeed`.
`validURL` models the platform predicate "`new URL(s)` does not throw", and
`now` the clock at the `addCustomFeed` call. -/
def handleAddFeed (validURL : String → Bool) (now : Nat)
    (nameInput urlInput categoryInput : String)
    (feeds : List FeedEntry) : AddFeedOutcome × List FeedEntry :=
  let name := jsTrim nameInput
  let url := jsTrim urlInput
  let category := jsTrim categoryInput
  if name = "" ∨ url = "" then (.missingFields, feeds)
  else if !validURL url then (.invalidUrl, feeds)
  else
    let r := addCustomFeed now name url category feeds
    (.added r.1, r.2)

/-- The per-feed line built by `exportCustomFeedsForYAML`
(custom-features.js line 676):
`  - ${feed.url}  # ${feed.name} (${feed.category})`. -/
def feedLine (f : FeedEntry) : String :=
  "  - " ++ f.url ++ "  # " ++ f.name ++ " (" ++ f.category ++ ")"

/-- Embedding of `exportCustomFeedsForYAML` (custom-features.js lines 668-690): with an
empty registry it only alerts (`none` = notice, no listing); otherwise it
produces the header comment followed by one line per feed.  It reads
`customFeeds` but never writes it. -/
def exportCustomFeedsForYAML (feeds : List FeedEntry) : Option (List String) :=
  if feeds.isEmpty then none
  else some ("# Custom feeds added by user" :: feeds.map feedLine)

/-- The three count badges injected by `addControlButtons`
(custom-features.js lines 369-393): the `snd-custom-count` span, the
`snd-deleted-count` span, and the `snd-stats-badge` "Custom Feeds Active"
text (which carries no element id). -/
structure Dom where
  customCountText : String
  deletedCountText : String
  activeBadgeText : String
deriving Repr, DecidableEq

/-- Embedding of `addControlButtons` (custom-features.js lines 369-393): renders all three
badges from the current collections:
`${this.customFeeds.length}`, `${this.deletedArticles.length}`, and
`${this.customFeeds.filter(f => f.enabled).length} Custom Feeds Active`. -/
def addControlButtons (feeds : List FeedEntry) (deleted : List String) : Dom :=
  { customCountText := toString feeds.length
    deletedCountText := toString deleted.length
    activeBadgeText := toString (feeds.filter (fun f => f.enabled)).length }

/-- Embedding of `updateStats` (custom-features.js lines 652-658): rewrites the
`snd-custom-count` and `snd-deleted-count` texts from the collections; no
statement touches the "Custom Feeds Active" badge. -/
def updateStats (feeds : List FeedEntry) (deleted : List String)
    (dom : Dom) : Dom :=
  { dom with
    customCountText := toString feeds.length
    deletedCountText := toString deleted.length }

/-- A `toggleCustomFeed` call together with its DOM effect: when an entry
matches, `saveCustomFeeds` runs and calls `updateStats`
(custom-features.js lines 30-33, 55-61). -/
def toggleOp (feedId : Nat) (feeds : List FeedEntry) (deleted : List String)
    (dom : Dom) : List FeedEntry × Dom :=
  if feeds.any (fun f => f.id == feedId) then
    let feeds1 := toggleCustomFeed feedId feeds
    (feeds1, updateStats feeds1 deleted dom)
  else (feeds, dom)

/-! ## Helper lemmas -/

/-- The ids of a run of `addCustomFeed` calls are the prior ids followed by
the clock values the calls observed, in order. -/
theorem addMany_map_id (inputs : List (Nat × String × String × String))
    (feeds : List FeedEntry) :
    (addMany inputs feeds).map (fun f => f.id) =
      feeds.map (fun f => f.id) ++ inputs.map (fun p => p.1) := by
  induction inputs generalizing feeds with
  | nil => simp [addMany]
  | cons p rest ih =>
    obtain ⟨now, name, url, cat⟩ := p
    simp [addMany, addCustomFeed, ih]

/-- A concrete feed entry whose `id` is the timestamp 5; used as an existing
entry in collision scenarios. -/
def entryAt5 : FeedEntry :=
  { id := 5, name := "A", url := "https://a", category := "General",
    dateAdded := 5, enabled := true }

/-- A second concrete entry sharing the `id` 5 (two `add` calls in the same
millisecond produce exactly this situation). -/
def entryAt5' : FeedEntry :=
  { id := 5, name := "B", url := "https://b", category := "General",
    dateAdded := 5, enabled := true }

/-- The concrete feed of the spec's export scenario. -/
def slmFeed : FeedEntry :=
  { id := 1, name := "Senior Living Magazine", url := "https://example.com/rss",
    category := "Lifestyle", dateAdded := 0, enabled := true }

/-- A concrete enabled feed used for the badge-staleness run. -/
def demoFeed : FeedEntry :=
  { id := 1, name := "Demo", url := "https://demo.example", category := "General",
    dateAdded := 0, enabled := true }

/-! ## Claim theorems -/

/-- C1 (amended).  `loadCustomFeeds` / `loadDeletedArticles` never raise: a
parse exception (corrupt text) or a missing key yields `[]`, and so does any
parsed value that is falsy; but a truthy parsed value — including well-formed
JSON of the wrong shape, such as a number — is returned as-is, with no shape
validation. -/
theorem load_total_no_shape_check (v : Json) :
    loadCustomFeeds (.error ()) = .arr [] ∧
    loadDeletedArticles (.error ()) = .arr [] ∧
    loadCustomFeeds (.ok .null) = .arr [] ∧
    loadDeletedArticles (.ok .null) = .arr [] ∧
    (v.truthy = true → loadCustomFeeds (.ok v) = v ∧ loadDeletedArticles (.ok v) = v) ∧
    (v.truthy = false →
      loadCustomFeeds (.ok v) = .arr [] ∧ loadDeletedArticles (.ok v) = .arr []) := by
  refine ⟨rfl, rfl, rfl, rfl, ?_, ?_⟩
  · intro h
    constructor <;> simp [loadCustomFeeds, loadDeletedArticles, h]
  · intro h
    constructor <;> simp [loadCustomFeeds, loadDeletedArticles, h]

/-- C1 witness: the amended theorem applied at the truthy value `3` and at
the falsy value `""`. -/
theorem load_total_no_shape_check_witness :
    loadCustomFeeds (.ok (.num 3)) = .num 3 ∧
    loadDeletedArticles (.ok (.str "")) = .arr [] :=
  ⟨((load_total_no_shape_check (.num 3)).2.2.2.2.1 rfl).1,
   ((load_total_no_shape_check (.str "")).2.2.2.2.2 rfl).2⟩

/-- C1 counterexample: stored text `"5"` parses to the number `5`, which is
of the wrong shape for a registry, yet `loadCustomFeeds` returns it as-is
rather than the empty collection. -/
theorem load_wrong_shape_counterexample :
    loadCustomFeeds (.ok (.num 5)) = .num 5 ∧
    loadCustomFeeds (.ok (.num 5)) ≠ .arr [] :=
  ⟨rfl, fun h => Json.noConfusion h⟩

/-- C2 (amended).  Starting from the empty collection, a run of `add` calls
yields pairwise-distinct `id`s provided the clock values observed by the
calls are pairwise distinct; uniqueness is only as good as `Date.now()`. -/
theorem add_ids_nodup_of_distinct_clocks
    (inputs : List (Nat × String × String × String))
    (h : (inputs.map (fun p => p.1)).Nodup) :
    ((addMany inputs []).map (fun f => f.id)).Nodup := by
  rw [addMany_map_id]
  simpa using h

/-- C2 witness: two adds at clock values 1 and 2 give distinct ids. -/
theorem add_ids_nodup_witness :
    ((addMany [(1, "a", "https://a", "General"), (2, "b", "https://b", "General")]
      []).map (fun f => f.id)).Nodup :=
  add_ids_nodup_of_distinct_clocks
    [(1, "a", "https://a", "General"), (2, "b", "https://b", "General")] (by decide)

/-- C2 counterexample: two `add` calls observing the same clock value 5 (the
same millisecond) produce two entries both with `id = 5`, so ids are not
unique within the session. -/
theorem add_same_clock_duplicate_id :
    ((addMany [(5, "a", "https://a", "General"), (5, "b", "https://b", "General")]
      []).map (fun f => f.id)) = [5, 5] ∧
    ¬ ((addMany [(5, "a", "https://a", "General"), (5, "b", "https://b", "General")]
      []).map (fun f => f.id)).Nodup := by decide

/-- C3 (confirmed).  `handleAddFeed` leaves the collection unchanged and
raises one of the two alert outcomes whenever the trimmed name or url is
empty or the url fails URL parsing; otherwise it appends exactly the one
entry built by `addCustomFeed` from the trimmed fields. -/
theorem handleAddFeed_validates_then_adds (validURL : String → Bool) (now : Nat)
    (n u c : String) (feeds : List FeedEntry) :
    ((jsTrim n = "" ∨ jsTrim u = "" ∨ validURL (jsTrim u) = false) →
      (handleAddFeed validURL now n u c feeds).2 = feeds ∧
      ((handleAddFeed validURL now n u c feeds).1 = AddFeedOutcome.missingFields ∨
       (handleAddFeed validURL now n u c feeds).1 = AddFeedOutcome.invalidUrl)) ∧
    ((jsTrim n ≠ "" ∧ jsTrim u ≠ "" ∧ validURL (jsTrim u) = true) →
      (handleAddFeed validURL now n u c feeds).1 =
        AddFeedOutcome.added (addCustomFeed now (jsTrim n) (jsTrim u) (jsTrim c) feeds).1 ∧
      (handleAddFeed validURL now n u c feeds).2 =
        feeds ++ [(addCustomFeed now (jsTrim n) (jsTrim u) (jsTrim c) feeds).1]) := by
  constructor
  · rintro (h | h | h)
    · simp [handleAddFeed, h]
    · simp [handleAddFeed, h]
    · by_cases hn : jsTrim n = ""
      · simp [handleAddFeed, hn]
      · by_cases hu : jsTrim u = ""
        · simp [handleAddFeed, hn, hu]
        · simp [handleAddFeed, hn, hu, h, addCustomFeed]
  · rintro ⟨hn, hu, hv⟩
    simp [handleAddFeed, hn, hu, hv, addCustomFeed]

/-- C3 witness: a whitespace-only name aborts with no change, and a valid
trimmed pair appends exactly one entry. -/
theorem handleAddFeed_validates_witness :
    (handleAddFeed (fun s => s == "https://a.b") 7 "   " "https://a.b" "" []).2 =
      ([] : List FeedEntry) ∧
    (handleAddFeed (fun s => s == "https://a.b") 7 " News " " https://a.b " "" []).2 =
      [] ++ [(addCustomFeed 7 (jsTrim " News ") (jsTrim " https://a.b ") (jsTrim "") []).1] :=
  ⟨((handleAddFeed_validates_then_adds (fun s => s == "https://a.b") 7 "   "
      "https://a.b" "" []).1 (Or.inl (by decide))).1,
   ((handleAddFeed_validates_then_adds (fun s => s == "https://a.b") 7 " News "
      " https://a.b " "" []).2 ⟨by decide, by decide, by decide⟩).2⟩

/-- C4 (amended).  Provided no existing entry's id equals the clock value at
invocation, `addCustomFeed` returns an entry with exactly the given name and
url, category defaulting to "General" when blank, `enabled = true`, a
`dateAdded` not earlier than invocation time, and a fresh id, and it appends
that entry to the collection. -/
theorem addCustomFeed_spec_of_fresh_clock (now : Nat) (name url category : String)
    (feeds : List FeedEntry) (hfresh : ∀ f ∈ feeds, f.id ≠ now) :
    (addCustomFeed now name url category feeds).1.name = name ∧
    (addCustomFeed now name url category feeds).1.url = url ∧
    (addCustomFeed now name url category feeds).1.category =
      (if category = "" then "General" else category) ∧
    (addCustomFeed now name url category feeds).1.enabled = true ∧
    now ≤ (addCustomFeed now name url category feeds).1.dateAdded ∧
    (∀ f ∈ feeds, f.id ≠ (addCustomFeed now name url category feeds).1.id) ∧
    (addCustomFeed now name url category feeds).2 =
      feeds ++ [(addCustomFeed now name url category feeds).1] := by
  refine ⟨rfl, rfl, rfl, rfl, le_refl _, ?_, rfl⟩
  intro f hf
  simpa [addCustomFeed] using hfresh f hf

/-- C4 witness: adding to the singleton collection holding `entryAt5` at the
later clock value 7 gives an entry with the stated fields and a fresh id. -/
theorem addCustomFeed_spec_witness :
    (addCustomFeed 7 "N" "https://n" "" [entryAt5]).1.name = "N" ∧
    (addCustomFeed 7 "N" "https://n" "" [entryAt5]).1.url = "https://n" ∧
    (addCustomFeed 7 "N" "https://n" "" [entryAt5]).1.category =
      (if "" = "" then "General" else "") ∧
    (addCustomFeed 7 "N" "https://n" "" [entryAt5]).1.enabled = true ∧
    7 ≤ (addCustomFeed 7 "N" "https://n" "" [entryAt5]).1.dateAdded ∧
    (∀ f ∈ [entryAt5], f.id ≠ (addCustomFeed 7 "N" "https://n" "" [entryAt5]).1.id) ∧
    (addCustomFeed 7 "N" "https://n" "" [entryAt5]).2 =
      [entryAt5] ++ [(addCustomFeed 7 "N" "https://n" "" [entryAt5]).1] :=
  addCustomFeed_spec_of_fresh_clock 7 "N" "https://n" "" [entryAt5] (by decide)

/-- C4 counterexample: if an existing entry's id equals the clock value at
invocation (two adds in the same millisecond), the created entry's id is not
distinct from every existing id. -/
theorem addCustomFeed_id_collision :
    ¬ (∀ f ∈ [entryAt5], f.id ≠ (addCustomFeed 5 "B" "https://b" "" [entryAt5]).1.id) := by
  decide

/-- C5 (confirmed).  `deleteArticle` makes `isArticleDeleted` true,
`restoreArticle` makes it false, and from a state not containing the url,
deleting twice leaves the url exactly once and grows the collection by
exactly one. -/
theorem deletionRegistry_mark_restore_spec (url : String) (deleted : List String) :
    isArticleDeleted url (deleteArticle url deleted) = true ∧
    isArticleDeleted url (restoreArticle url deleted) = false ∧
    (deleted.contains url = false →
      (deleteArticle url (deleteArticle url deleted)).count url = 1 ∧
      (deleteArticle url (deleteArticle url deleted)).length = deleted.length + 1) := by
  refine ⟨?_, ?_, ?_⟩
  · by_cases hm : url ∈ deleted
    · simp [deleteArticle, isArticleDeleted, hm]
    · simp [deleteArticle, isArticleDeleted, hm]
  · simp [restoreArticle, isArticleDeleted, List.mem_filter]
  · intro h
    have hmem : url ∉ deleted := by simpa using h
    simp [deleteArticle, hmem, List.count_append, List.count_eq_zero.mpr hmem]

/-- C5 witness: the spec scenario url applied to the empty registry. -/
theorem deletionRegistry_mark_restore_witness :
    isArticleDeleted "https://news.example.com/a1"
      (deleteArticle "https://news.example.com/a1" []) = true ∧
    isArticleDeleted "https://news.example.com/a1"
      (restoreArticle "https://news.example.com/a1" []) = false ∧
    (deleteArticle "https://news.example.com/a1"
      (deleteArticle "https://news.example.com/a1" [])).count
        "https://news.example.com/a1" = 1 ∧
    (deleteArticle "https://news.example.com/a1"
      (deleteArticle "https://news.example.com/a1" [])).length =
        ([] : List String).length + 1 :=
  ⟨(deletionRegistry_mark_restore_spec "https://news.example.com/a1" []).1,
   (deletionRegistry_mark_restore_spec "https://news.example.com/a1" []).2.1,
   (deletionRegistry_mark_restore_spec "https://news.example.com/a1" []).2.2 rfl⟩

/-- C6 (confirmed).  `toggleCustomFeed` is an involution: toggling the same
id twice restores the collection exactly, every field of every entry
included. -/
theorem toggleCustomFeed_involution (feedId : Nat) (feeds : List FeedEntry) :
    toggleCustomFeed feedId (toggleCustomFeed feedId feeds) = feeds := by
  induction feeds with
  | nil => rfl
  | cons f rest ih =>
    by_cases h : f.id = feedId
    · subst h
      simp [toggleCustomFeed]
    · simp [toggleCustomFeed, h, ih]

/-- C7 (confirmed).  `removeCustomFeed` is idempotent, and removing an id no
entry carries is a no-op. -/
theorem removeCustomFeed_idempotent_noop (feedId : Nat) (feeds : List FeedEntry) :
    removeCustomFeed feedId (removeCustomFeed feedId feeds) =
      removeCustomFeed feedId feeds ∧
    ((∀ f ∈ feeds, f.id ≠ feedId) → removeCustomFeed feedId feeds = feeds) := by
  constructor
  · simp [removeCustomFeed, List.filter_filter]
  · intro h
    apply List.filter_eq_self.mpr
    intro f hf
    simpa using h f hf

/-- C7 witness: removing the absent id 3 from the singleton collection is a
no-op, and doing it twice equals doing it once. -/
theorem removeCustomFeed_idempotent_witness :
    removeCustomFeed 3 (removeCustomFeed 3 [entryAt5]) = removeCustomFeed 3 [entryAt5] ∧
    removeCustomFeed 3 [entryAt5] = [entryAt5] :=
  ⟨(removeCustomFeed_idempotent_noop 3 [entryAt5]).1,
   (removeCustomFeed_idempotent_noop 3 [entryAt5]).2 (by decide)⟩

/-- C8 (confirmed).  Export on an empty registry yields only the notice (no
listing); otherwise it yields the header followed by one line per feed,
independent of each entry's `enabled` flag, and it never writes any state;
the spec's one-feed scenario produces exactly one feed line with that url,
name and category. -/
theorem exportCustomFeedsForYAML_spec (feeds : List FeedEntry) (b : Bool) :
    (feeds = [] → exportCustomFeedsForYAML feeds = none) ∧
    (feeds ≠ [] →
      exportCustomFeedsForYAML feeds =
        some ("# Custom feeds added by user" :: feeds.map feedLine)) ∧
    exportCustomFeedsForYAML (feeds.map (fun f => { f with enabled := b })) =
      exportCustomFeedsForYAML feeds ∧
    exportCustomFeedsForYAML [slmFeed] =
      some ["# Custom feeds added by user",
            "  - https://example.com/rss  # Senior Living Magazine (Lifestyle)"] := by
  refine ⟨?_, ?_, ?_, by decide⟩
  · intro h
    simp [exportCustomFeedsForYAML, h]
  · intro h
    simp [exportCustomFeedsForYAML, h]
  · by_cases h : feeds = []
    · simp [exportCustomFeedsForYAML, h]
    · have hne : feeds.map (fun f => { f with enabled := b }) ≠ [] := by
        simpa using h
      simp [exportCustomFeedsForYAML, h, hne, List.map_map]
      intro a _
      rfl

/-- C8 witness: the theorem applied to the scenario registry holding exactly
`slmFeed`. -/
theorem exportCustomFeedsForYAML_witness :
    exportCustomFeedsForYAML [slmFeed] =
      some ("# Custom feeds added by user" :: [slmFeed].map feedLine) :=
  (exportCustomFeedsForYAML_spec [slmFeed] false).2.1 (by decide)

/-- C9 (code bug).  Run: bootstrap over the single enabled feed `demoFeed`
renders all badges, then `toggleCustomFeed 1` disables it and
`saveCustomFeeds` triggers `updateStats`.  The `snd-custom-count` badge does
track the collection size, but the "Custom Feeds Active" badge still reads
"1" while the enabled count is 0: `updateStats` never rewrites it, so not
every count badge shows the collection-derived value after the mutation. -/
theorem activeBadge_stale_after_toggle :
    (toggleOp 1 [demoFeed] [] (addControlButtons [demoFeed] [])).2.customCountText =
      toString (toggleOp 1 [demoFeed] [] (addControlButtons [demoFeed] [])).1.length ∧
    ((toggleOp 1 [demoFeed] [] (addControlButtons [demoFeed] [])).1.filter
      (fun f => f.enabled)).length = 0 ∧
    (toggleOp 1 [demoFeed] [] (addControlButtons [demoFeed] [])).2.activeBadgeText = "1" ∧
    (toggleOp 1 [demoFeed] [] (addControlButtons [demoFeed] [])).2.activeBadgeText ≠
      toString ((toggleOp 1 [demoFeed] [] (addControlButtons [demoFeed] [])).1.filter
        (fun f => f.enabled)).length := by decide

/-- C10 (confirmed).  With the collection split as `pre ++ f :: post` where
`pre` holds no matching entry and `f` matches, `toggleCustomFeed` flips only
`f` and leaves `post` — later matching entries included — untouched, while
`removeCustomFeed` drops `f` and every matching entry of `post`, so no entry
with the id survives. -/
theorem duplicate_id_toggle_first_remove_all (feedId : Nat) (pre : List FeedEntry)
    (f : FeedEntry) (post : List FeedEntry)
    (hpre : ∀ g ∈ pre, g.id ≠ feedId) (hf : f.id = feedId) :
    toggleCustomFeed feedId (pre ++ f :: post) =
      pre ++ { f with enabled := !f.enabled } :: post ∧
    removeCustomFeed feedId (pre ++ f :: post) =
      pre ++ removeCustomFeed feedId post ∧
    (∀ g ∈ removeCustomFeed feedId (pre ++ f :: post), g.id ≠ feedId) := by
  refine ⟨?_, ?_, ?_⟩
  · induction pre with
    | nil => simp [toggleCustomFeed, hf]
    | cons g rest ih =>
      have hg : g.id ≠ feedId := hpre g (by simp)
      have := ih (fun x hx => hpre x (by simp [hx]))
      simp [toggleCustomFeed, hg, this]
  · have hpre2 : List.filter (fun g => g.id != feedId) pre = pre := by
      apply List.filter_eq_self.mpr
      intro g hg
      simpa using hpre g hg
    simp [removeCustomFeed, List.filter_append, List.filter_cons, hf, hpre2]
  · intro g hg
    have := List.of_mem_filter hg
    simpa using this

/-- C10 witness: with two entries both carrying id 5, toggle flips only the
first while remove eliminates both. -/
theorem duplicate_id_toggle_first_remove_all_witness :
    toggleCustomFeed 5 ([] ++ entryAt5 :: [entryAt5']) =
      [] ++ { entryAt5 with enabled := !entryAt5.enabled } :: [entryAt5'] ∧
    removeCustomFeed 5 ([] ++ entryAt5 :: [entryAt5']) =
      [] ++ removeCustomFeed 5 [entryAt5'] ∧
    (∀ g ∈ removeCustomFeed 5 ([] ++ entryAt5 :: [entryAt5']), g.id ≠ 5) :=
  duplicate_id_toggle_first_remove_all 5 [] entryAt5 [entryAt5'] (by simp) rfl

end SND
